import Mathlib

/-!
Verification of the dice load balancer's core logic against its
natural-language specification.

The definitions below are shallow embeddings of the Go sources:

* `entity/node.go`, `entity/instance.go` — the entity model (only the
  fields the verified operations read are kept; `uint8` weights are
  modelled as `Nat`, which is exact here because the weight counter is
  only ever incremented while strictly below a node weight, so it can
  never exceed 255 when all weights are `uint8` values).
* `scheduler/weighted_round_robin.go` — `WeightedRoundRobin.Next`.
  The Go `for attempts < len(...)` loop with the `lookup` label is
  `nextLoop`, with the loop variable `attempts` as an argument.  Go's
  bounds-checked slice indexing is modelled with `List.get?`; a `none`
  result corresponds to a runtime panic and is represented with the
  `NextResult.panicked` constructor.
* `scheduler/scheduler.go` — `NewScheduler` and the balancing-method
  enum; the `panic("unimplemented balancing algorithm")` calls are
  represented with `SchedulerResult.panicked`.
* `registry/entities.go`, `registry/service_registry.go` — deployments,
  the service registry and its operations.  Go maps are modelled as
  association lists; Go slice headers copied into locals are modelled
  by `let` bindings whose results are dropped exactly where the Go code
  drops them.
* `healthcheck/healthcheck.go` — `checkServices`; the TCP probe
  (`pingInstance`) is an oracle parameter `ping`.
* The proxy's `handleRequest`/`streamResponse` (package `proxy`) —
  route lookup, scheduling and upstream dialing are abstracted as
  oracle inputs; the events written to the `http.ResponseWriter` are
  collected in a list.
-/

namespace Dice

/-- Embeds `entity.Node` (entity/node.go): only the fields read by the
verified operations are kept.  `Weight` is `uint8` in the source. -/
structure Node where
  id : String
  weight : Nat
  isAttached : Bool
  isAlive : Bool
  deriving Repr, DecidableEq

/-- Embeds `entity.Instance` (entity/instance.go): only the fields read
by the verified operations are kept. -/
structure Instance where
  id : String
  serviceID : String
  url : String
  isAttached : Bool
  isAlive : Bool
  deriving Repr, DecidableEq

/-- Embeds `registry.Deployment` (registry/entities.go): a node paired
with an instance.  The Go field `Instance` is a Lean keyword, so it is
called `inst` here. -/
structure Deployment where
  node : Node
  inst : Instance
  deriving Repr, DecidableEq

/-- Embeds the `WeightedRoundRobin` struct
(scheduler/weighted_round_robin.go): the deployment working set, the
cursor `currentIndex` and the weight counter `currentWeight`. -/
structure WeightedRoundRobin where
  deployments : List Deployment
  currentIndex : Nat
  currentWeight : Nat
  deriving Repr, DecidableEq

/-- Embeds `newWeightedRoundRobin`: cursor and weight counter start at
zero. -/
def newWeightedRoundRobin (deployments : List Deployment) : WeightedRoundRobin :=
  { deployments := deployments, currentIndex := 0, currentWeight := 0 }

/-- Outcome of one `Next()` call: a selected instance, the
`errors.New("no service instance found")` error, or a runtime panic
(out-of-range indexing; proved unreachable below). -/
inductive NextResult where
  | ok (i : Instance)
  | noInstance
  | panicked
  deriving Repr, DecidableEq

/-- Result of running the `lookup` loop of `WeightedRoundRobin.Next`:
the scheduler state at exit, the final value of the `attempts` loop
variable, and the returned value. -/
structure NextOutcome where
  state : WeightedRoundRobin
  attempts : Nat
  result : NextResult
  deriving Repr, DecidableEq

/-- Embeds the `lookup` loop of `WeightedRoundRobin.Next`
(scheduler/weighted_round_robin.go lines 57-81).  The Go loop guard is
`attempts < len(deployments)`; to obtain a structurally recursive (and
hence kernel-computable) definition the loop recurses on the remaining
attempt budget `gas`, which every caller keeps equal to
`deployments.length - attempts`, so that `gas = 0` holds exactly when
the Go guard fails (every recursive call increments `attempts` and
decrements `gas`, and the deployment list is never modified by the
loop).  Each branch mirrors one statement block of the Go loop body, in
source order:

1. skip a detached or dead instance (cursor advances, the weight
   counter is left as it is);
2. if the node's weight equals the weight counter, reset the counter,
   advance the cursor and rescan;
3. if the node's weight exceeds the counter, increment the counter and
   return the instance without advancing the cursor;
4. otherwise (weight below the counter) only `attempts` increases. -/
def nextLoopGo (wrr : WeightedRoundRobin) (attempts : Nat) : Nat → NextOutcome
  | 0 => { state := wrr, attempts := attempts, result := .noInstance }
  | gas + 1 =>
    match wrr.deployments.get? (wrr.currentIndex % wrr.deployments.length) with
    | none => { state := wrr, attempts := attempts, result := .panicked }
    | some d =>
      if !d.inst.isAttached || !d.inst.isAlive then
        nextLoopGo { wrr with currentIndex := wrr.currentIndex + 1 } (attempts + 1) gas
      else if d.node.weight == wrr.currentWeight then
        nextLoopGo { wrr with currentIndex := wrr.currentIndex + 1, currentWeight := 0 }
          (attempts + 1) gas
      else if d.node.weight > wrr.currentWeight then
        { state := { wrr with currentWeight := wrr.currentWeight + 1 },
          attempts := attempts, result := .ok d.inst }
      else
        nextLoopGo wrr (attempts + 1) gas

/-- The `lookup` loop entered with a given starting value of the
`attempts` loop variable: the remaining budget is
`deployments.length - attempts`. -/
def nextLoop (wrr : WeightedRoundRobin) (attempts : Nat) : NextOutcome :=
  nextLoopGo wrr attempts (wrr.deployments.length - attempts)

/-- Embeds `WeightedRoundRobin.Next`: runs the loop with `attempts`
starting at `0` and pairs the final scheduler state with the returned
value. -/
def Next (wrr : WeightedRoundRobin) : WeightedRoundRobin × NextResult :=
  let o := nextLoop wrr 0
  (o.state, o.result)

/-- The results of `n` consecutive `Next()` calls, threading the
scheduler state from call to call. -/
def nextN : WeightedRoundRobin → Nat → List NextResult
  | _, 0 => []
  | wrr, Nat.succ n => (nextLoop wrr 0).result :: nextN (nextLoop wrr 0).state n

/-! Concrete topology of the specification's weighted-selection test
case: three nodes, five instances, five deployments. -/

def n1 : Node := { id := "n1", weight := 2, isAttached := true, isAlive := true }

def n2 : Node := { id := "n2", weight := 1, isAttached := true, isAlive := true }

def n3 : Node := { id := "n3", weight := 1, isAttached := false, isAlive := true }

def i1 : Instance :=
  { id := "i1", serviceID := "s1", url := "i1.local", isAttached := true, isAlive := true }

def i2 : Instance :=
  { id := "i2", serviceID := "s1", url := "i2.local", isAttached := false, isAlive := true }

def i3 : Instance :=
  { id := "i3", serviceID := "s1", url := "i3.local", isAttached := true, isAlive := true }

def i4 : Instance :=
  { id := "i4", serviceID := "s1", url := "i4.local", isAttached := true, isAlive := false }

def i5 : Instance :=
  { id := "i5", serviceID := "s1", url := "i5.local", isAttached := true, isAlive := true }

def wrrConcrete : WeightedRoundRobin :=
  newWeightedRoundRobin
    [ { node := n1, inst := i1 }, { node := n1, inst := i2 },
      { node := n2, inst := i3 }, { node := n2, inst := i4 },
      { node := n3, inst := i5 } ]

/-- Claim C1: for a freshly created Weighted Round Robin scheduler over
the deployment list [(n1,i1),(n1,i2),(n2,i3),(n2,i4),(n3,i5)] — n1
weight 2 attached alive, n2 weight 1 attached alive, n3 weight 1
detached; i1 attached alive, i2 detached, i3 attached alive, i4
attached dead, i5 attached alive — the first four `Next()` calls return
exactly i1, i1, i3, i5 in that order; in particular i5 is returned
although its node n3 is detached. -/
theorem wrr_concrete_trace :
    nextN wrrConcrete 4 =
      [NextResult.ok i1, NextResult.ok i1, NextResult.ok i3, NextResult.ok i5] := by
  decide

/-! Structural lemmas about the `lookup` loop. -/

/-- The loop never modifies the deployment list. -/
theorem nextLoopGo_deployments (gas : Nat) :
    ∀ (wrr : WeightedRoundRobin) (attempts : Nat),
      (nextLoopGo wrr attempts gas).state.deployments = wrr.deployments := by
  induction gas with
  | zero => intro wrr attempts; rfl
  | succ gas ih =>
    intro wrr attempts
    unfold nextLoopGo
    split
    · rfl
    · split
      · exact ih _ _
      · split
        · exact ih _ _
        · split
          · rfl
          · exact ih _ _

/-- The only `return` inside the loop fires when the examined node's
weight strictly exceeds the weight counter, so a selected instance
always belongs to a deployment of the working set whose node has
positive weight. -/
theorem nextLoopGo_ok (gas : Nat) :
    ∀ (wrr : WeightedRoundRobin) (attempts : Nat) (i : Instance),
      (nextLoopGo wrr attempts gas).result = NextResult.ok i →
      ∃ d, d ∈ wrr.deployments ∧ i = d.inst ∧ 0 < d.node.weight := by
  induction gas with
  | zero => intro wrr attempts i h; exact absurd h (by simp [nextLoopGo])
  | succ gas ih =>
    intro wrr attempts i h
    rw [nextLoopGo] at h
    split at h
    · exact absurd h (by simp)
    · rename_i d hget
      split at h
      · exact ih { wrr with currentIndex := wrr.currentIndex + 1 } _ _ h
      · split at h
        · exact ih { wrr with currentIndex := wrr.currentIndex + 1, currentWeight := 0 } _ _ h
        · split at h
          · rename_i hgt
            refine ⟨d, List.get?_mem hget, ?_, by omega⟩
            simpa using h.symm
          · exact ih _ _ _ h

/-- As long as the remaining attempt budget does not exceed the number
of deployments (which the Go guard `attempts < len(deployments)`
guarantees), the index `currentIndex % len(deployments)` is in bounds
and the loop cannot panic. -/
theorem nextLoopGo_not_panicked (gas : Nat) :
    ∀ (wrr : WeightedRoundRobin) (attempts : Nat),
      gas ≤ wrr.deployments.length →
      (nextLoopGo wrr attempts gas).result ≠ NextResult.panicked := by
  induction gas with
  | zero => intro wrr attempts _ h; exact absurd h (by simp [nextLoopGo])
  | succ gas ih =>
    intro wrr attempts hgas h
    rw [nextLoopGo] at h
    split at h
    · rename_i hget
      have hlt : wrr.currentIndex % wrr.deployments.length < wrr.deployments.length :=
        Nat.mod_lt _ (by omega)
      exact absurd (List.get?_eq_none.mp hget) (by omega)
    · split at h
      · exact ih _ _ (by simpa using Nat.le_of_succ_le hgas) h
      · split at h
        · exact ih _ _ (by simpa using Nat.le_of_succ_le hgas) h
        · split at h
          · exact absurd h (by simp)
          · exact ih _ _ (Nat.le_of_succ_le hgas) h

/-- If every deployment in the working set has a detached or dead
instance, the loop takes the skip branch on every iteration: after
consuming the whole budget it exits with the no-instance error, its
cursor advanced by the budget and the `attempts` variable increased by
the budget. -/
theorem nextLoopGo_exhaust (gas : Nat) :
    ∀ (wrr : WeightedRoundRobin) (attempts : Nat),
      gas ≤ wrr.deployments.length →
      (∀ d ∈ wrr.deployments, d.inst.isAttached = false ∨ d.inst.isAlive = false) →
      (nextLoopGo wrr attempts gas).result = NextResult.noInstance ∧
        (nextLoopGo wrr attempts gas).attempts = attempts + gas := by
  induction gas with
  | zero => intro wrr attempts _ _; exact ⟨rfl, rfl⟩
  | succ gas ih =>
    intro wrr attempts hgas hdead
    rw [nextLoopGo]
    have hlt : wrr.currentIndex % wrr.deployments.length < wrr.deployments.length :=
      Nat.mod_lt _ (by omega)
    split
    · rename_i hget
      exact absurd (List.get?_eq_none.mp hget) (by omega)
    · rename_i d hget
      have hd := hdead d (List.get?_mem hget)
      split
      · have := ih { wrr with currentIndex := wrr.currentIndex + 1 } (attempts + 1)
          (by simpa using Nat.le_of_succ_le hgas) (by simpa using hdead)
        exact ⟨this.1, by rw [this.2]; omega⟩
      · rename_i hhealthy
        rcases hd with h | h <;> simp [h] at hhealthy

/-! Concrete scheduler states used to exercise the theorems below. -/

/-- A node of weight 0 (attached and alive). -/
def z1 : Node := { id := "z1", weight := 0, isAttached := true, isAlive := true }

/-- A healthy instance deployed on the weight-0 node. -/
def iz : Instance :=
  { id := "iz", serviceID := "s1", url := "iz.local", isAttached := true, isAlive := true }

def zeroDeployment : Deployment := { node := z1, inst := iz }

/-- A scheduler whose only deployment sits on a weight-0 node. -/
def zeroState : WeightedRoundRobin := newWeightedRoundRobin [zeroDeployment]

/-- A scheduler whose deployments all have a dead (i4) or detached (i2)
instance. -/
def exhaustState : WeightedRoundRobin :=
  newWeightedRoundRobin [ { node := n1, inst := i4 }, { node := n1, inst := i2 } ]

/-- A node of weight 3 hosting a dead instance. -/
def n9 : Node := { id := "n9", weight := 3, isAttached := true, isAlive := true }

/-- An attached but dead instance on `n9`. -/
def i9 : Instance :=
  { id := "i9", serviceID := "s1", url := "i9.local", isAttached := true, isAlive := false }

def skipDeployment : Deployment := { node := n9, inst := i9 }

/-- A scheduler state whose cursor points at a dead deployment while the
weight counter holds 5 (such states arise when the instance under the
cursor dies between two `Next()` calls). -/
def skipState : WeightedRoundRobin :=
  { deployments := [skipDeployment], currentIndex := 0, currentWeight := 5 }

/-- Claim C3: for every deployment list in which some deployment's node
has weight 0, and for every number of consecutive `Next()` calls, no
call ever returns the instance of a weight-0 node (every returned
instance belongs to a deployment whose node has positive weight), and
when a weight-0 deployment is the only element of the list every call
fails with the no-instance error. -/
theorem wrr_zero_weight_never_selected (wrr : WeightedRoundRobin) (n : Nat) :
    (∀ r ∈ nextN wrr n, ∀ i : Instance, r = NextResult.ok i →
        ∃ d, d ∈ wrr.deployments ∧ i = d.inst ∧ 0 < d.node.weight)
    ∧ (∀ d0 : Deployment, d0.node.weight = 0 → wrr.deployments = [d0] →
        ∀ r ∈ nextN wrr n, r = NextResult.noInstance) := by
  induction n generalizing wrr with
  | zero =>
    refine ⟨?_, ?_⟩
    · intro r hr
      simp [nextN] at hr
    · intro d0 _ _ r hr
      simp [nextN] at hr
  | succ n ih =>
    have hdep : (nextLoop wrr 0).state.deployments = wrr.deployments :=
      nextLoopGo_deployments _ _ _
    refine ⟨?_, ?_⟩
    · intro r hr i hi
      rw [nextN] at hr
      rcases List.mem_cons.mp hr with h | h
      · exact nextLoopGo_ok _ wrr 0 i (h ▸ hi)
      · obtain ⟨d, hd, hrest⟩ := (ih (nextLoop wrr 0).state).1 r h i hi
        exact ⟨d, hdep ▸ hd, hrest⟩
    · intro d0 h0 hlist r hr
      rw [nextN] at hr
      rcases List.mem_cons.mp hr with h | h
      · subst h
        cases hres : (nextLoop wrr 0).result with
        | ok i =>
          obtain ⟨d, hd, _, hw⟩ := nextLoopGo_ok _ wrr 0 i hres
          rw [hlist, List.mem_singleton] at hd
          subst hd
          omega
        | noInstance => rfl
        | panicked =>
          exact absurd hres (nextLoopGo_not_panicked _ wrr 0 (Nat.sub_le _ _))
      · exact (ih (nextLoop wrr 0).state).2 d0 h0 (hdep.trans hlist) r h

/-- Witness for C3: on the singleton weight-0 topology, the first of
three consecutive calls indeed fails. -/
theorem wrr_zero_weight_never_selected_witness :
    (nextN zeroState 3).get ⟨0, by decide⟩ = NextResult.noInstance :=
  (wrr_zero_weight_never_selected zeroState 3).2 zeroDeployment (by decide) (by decide)
    ((nextN zeroState 3).get ⟨0, by decide⟩) (by decide)

/-- Claim C4: for every deployment list (including the empty one) in
which every deployment's instance is detached or dead, `Next()` returns
the no-instance error (in particular it neither selects an instance nor
panics), and the `attempts` loop variable at exit is at most
`len(deployments)`: the scan performs at most that many attempts. -/
theorem wrr_exhaustion_returns_error (wrr : WeightedRoundRobin)
    (h : ∀ d ∈ wrr.deployments, d.inst.isAttached = false ∨ d.inst.isAlive = false) :
    (Next wrr).2 = NextResult.noInstance ∧
      (nextLoop wrr 0).attempts ≤ wrr.deployments.length := by
  have he := nextLoopGo_exhaust (wrr.deployments.length - 0) wrr 0 (Nat.sub_le _ _) h
  refine ⟨he.1, ?_⟩
  show (nextLoopGo wrr 0 (wrr.deployments.length - 0)).attempts ≤ wrr.deployments.length
  rw [he.2]
  omega

/-- Witness for C4: both deployments of `exhaustState` are dead or
detached, and the call fails with the no-instance error within the
attempt budget. -/
theorem wrr_exhaustion_returns_error_witness :
    (Next exhaustState).2 = NextResult.noInstance ∧
      (nextLoop exhaustState 0).attempts ≤ exhaustState.deployments.length :=
  wrr_exhaustion_returns_error exhaustState (by decide)

/-- Counterexample to C5 as stated: starting from `skipState` (weight
counter 5, cursor on a dead deployment), `Next()` examines and skips
the dead deployment — the cursor advances from 0 to 1 and the call
returns the no-instance error — yet the weight counter still holds 5
afterwards.  Had the skip reset the counter to 0 as the claim states,
nothing later in this run would have written it back to 5. -/
theorem wrr_skip_reset_counterexample :
    (Next skipState).2 = NextResult.noInstance ∧
      (Next skipState).1.currentWeight = 5 ∧ (Next skipState).1.currentIndex = 1 := by
  decide

/-- Claim C5 (amended): whenever `Next()` examines a deployment whose
instance is not attached or not alive, it skips it by advancing the
cursor by one and leaving the current-weight counter unchanged (no
reset takes place), consuming one scan attempt. -/
theorem wrr_skip_preserves_weight (wrr : WeightedRoundRobin) (attempts gas : Nat)
    (d : Deployment)
    (hget : wrr.deployments.get? (wrr.currentIndex % wrr.deployments.length) = some d)
    (hskip : d.inst.isAttached = false ∨ d.inst.isAlive = false) :
    nextLoopGo wrr attempts (gas + 1) =
      nextLoopGo
        { deployments := wrr.deployments, currentIndex := wrr.currentIndex + 1,
          currentWeight := wrr.currentWeight }
        (attempts + 1) gas := by
  rw [nextLoopGo, hget]
  rcases hskip with h | h <;> simp [h]

/-- Witness for C5 (amended): the skip transition on `skipState`. -/
theorem wrr_skip_preserves_weight_witness :
    nextLoopGo skipState 0 1 =
      nextLoopGo
        { deployments := skipState.deployments, currentIndex := skipState.currentIndex + 1,
          currentWeight := skipState.currentWeight }
        1 0 :=
  wrr_skip_preserves_weight skipState 0 0 skipDeployment (by decide) (by decide)

/-! ### Service registry (registry/entities.go, registry/service_registry.go) -/

/-- Embeds the part of `entity.Service` the registry and health checker
read: ID, public URLs and the enabled flag. -/
structure ServiceEntity where
  id : String
  urls : List String
  isEnabled : Bool
  deriving Repr, DecidableEq

/-- Embeds `registry.Service`: the service entity, its deployment list,
and its scheduler.  The scheduler interface value is represented by the
one implemented scheduler (`none` models a nil interface value). -/
structure RService where
  entity : ServiceEntity
  deployments : List Deployment
  sched : Option WeightedRoundRobin
  deriving Repr, DecidableEq

/-- The error values of registry/service_registry.go. -/
inductive RegistryError where
  | unregisteredService
  | serviceAlreadyRegistered
  | serviceNotRemovable
  | unregisteredDeployment
  | deploymentNotRemovable
  deriving Repr, DecidableEq

/-- Embeds `ServiceRegistry`: the `Services map[string]Service` field is
modelled as an association list (Go map iteration order is abstracted
as list order). -/
structure ServiceRegistry where
  services : List (String × RService)
  deriving Repr, DecidableEq

/-- Map lookup `sr.Services[serviceID]`. -/
def lookupService (sr : ServiceRegistry) (serviceID : String) : Option RService :=
  (sr.services.find? (fun p => p.1 == serviceID)).map (fun p => p.2)

/-- Map store `sr.Services[serviceID] = s`. -/
def setService (sr : ServiceRegistry) (serviceID : String) (s : RService) : ServiceRegistry :=
  { sr with services := sr.services.map (fun p => if p.1 == serviceID then (p.1, s) else p) }

/-- Embeds `Deployment.equals` (registry/entities.go lines 52-57): two
deployments are equal iff node ID and instance ID match. -/
def Deployment.equals (d other : Deployment) : Bool :=
  d.node.id == other.node.id && d.inst.id == other.inst.id

/-- Embeds `Deployment.isRemovable` (registry/entities.go lines 44-50):
not removable exactly when both the node and the instance are
attached. -/
def Deployment.isRemovable (d : Deployment) : Bool :=
  if d.node.isAttached && d.inst.isAttached then false else true

/-- Embeds `ServiceRegistry.indexOfDeployment`: linear scan for the
first deployment equal to the argument; `-1` when none matches. -/
def indexOfDeployment (sr : ServiceRegistry) (serviceID : String) (deployment : Deployment) :
    Except RegistryError Int :=
  match lookupService sr serviceID with
  | none => Except.error RegistryError.unregisteredService
  | some s =>
    match s.deployments.findIdx? (fun d => d.equals deployment) with
    | some i => Except.ok (Int.ofNat i)
    | none => Except.ok (-1)

/-- Embeds `ServiceRegistry.RegisterDeployment`
(registry/service_registry.go lines 212-223).  The Go code copies the
stored slice header into the local variable `deployments` and appends
to that local; the appended slice is never written back to the map
entry (and no scheduler update is made), so the registry is returned
unchanged.  The dropped `let` binding mirrors the dead Go append. -/
def RegisterDeployment (sr : ServiceRegistry) (deployment : Deployment) :
    ServiceRegistry × Except RegistryError Unit :=
  let serviceID := deployment.inst.serviceID
  match lookupService sr serviceID with
  | none => (sr, Except.error RegistryError.unregisteredService)
  | some s =>
    let deployments := s.deployments
    let _ := deployments ++ [deployment]
    (sr, Except.ok ())

/-- Embeds `ServiceRegistry.UnregisterDeployment`
(registry/service_registry.go lines 228-253).  On the success path the
Go code performs a swap-with-last on the local slice copy:
`deployments[index] = deployments[len(deployments)-1]` writes through
the shared backing array and is therefore visible in the stored slice,
while the re-slicing `deployments = deployments[:len(deployments)-1]`
only rebinds the local variable and is dropped — so the stored list
keeps its length, with the last element now duplicated at `index`. -/
def UnregisterDeployment (sr : ServiceRegistry) (deployment : Deployment) (force : Bool) :
    ServiceRegistry × Except RegistryError Unit :=
  let serviceID := deployment.inst.serviceID
  match lookupService sr serviceID with
  | none => (sr, Except.error RegistryError.unregisteredService)
  | some s =>
    match indexOfDeployment sr serviceID deployment with
    | Except.error e => (sr, Except.error e)
    | Except.ok index =>
      if index == -1 then (sr, Except.error RegistryError.unregisteredDeployment)
      else if !force && !deployment.isRemovable then
        (sr, Except.error RegistryError.deploymentNotRemovable)
      else
        let ds := s.deployments
        let stored :=
          match ds.getLast? with
          | some last => ds.set index.toNat last
          | none => ds
        let _ := stored.dropLast
        (setService sr serviceID { s with deployments := stored }, Except.ok ())

/-! ### Bulk updates (registry/service_registry.go lines 84-133) -/

/-- Outcome of an `Update*` walk: normal return, the first updater
error, or the `panic(ErrInvalidUpdate)` raised on a nil updater. -/
inductive UpdateOutcome where
  | ok
  | err (message : String)
  | panicked (message : String)
  deriving Repr, DecidableEq

/-- The Go updater callbacks (`func(*T) error`) mutate through a
pointer and return an error; they are modelled as functions returning
the updated value together with an optional error message.  A nil
callback is `none` at the call sites below. -/
def NodeUpdater : Type := Node → Node × Option String

def ServiceUpdater : Type := ServiceEntity → ServiceEntity × Option String

def InstanceUpdater : Type := Instance → Instance × Option String

/-- The inner walk of `UpdateNodes` over one service's deployments:
apply the updater to each node in order, stopping at the first error
(the failing element's mutation is already applied, later elements are
untouched). -/
def updateNodesDeployments (updater : NodeUpdater) :
    List Deployment → List Deployment × Option String
  | [] => ([], none)
  | d :: ds =>
    match updater d.node with
    | (n', some e) => ({ d with node := n' } :: ds, some e)
    | (n', none) =>
      let (ds', r) := updateNodesDeployments updater ds
      ({ d with node := n' } :: ds', r)

/-- The outer walk of `UpdateNodes` over all services. -/
def updateNodesServices (updater : NodeUpdater) :
    List (String × RService) → List (String × RService) × Option String
  | [] => ([], none)
  | (k, s) :: rest =>
    match updateNodesDeployments updater s.deployments with
    | (ds', some e) => ((k, { s with deployments := ds' }) :: rest, some e)
    | (ds', none) =>
      let (rest', r) := updateNodesServices updater rest
      ((k, { s with deployments := ds' }) :: rest', r)

/-- Embeds `ServiceRegistry.UpdateNodes` (lines 87-101): a nil updater
panics with `ErrInvalidUpdate` before anything is visited; otherwise
the updater runs on every node of every service, first error stops the
walk. -/
def UpdateNodes (sr : ServiceRegistry) (updater : Option NodeUpdater) :
    ServiceRegistry × UpdateOutcome :=
  match updater with
  | none => (sr, UpdateOutcome.panicked "the provided update is invalid")
  | some f =>
    match updateNodesServices f sr.services with
    | (services', some e) => ({ sr with services := services' }, UpdateOutcome.err e)
    | (services', none) => ({ sr with services := services' }, UpdateOutcome.ok)

/-- The walk of `UpdateServices` over all service entities. -/
def updateServicesList (updater : ServiceUpdater) :
    List (String × RService) → List (String × RService) × Option String
  | [] => ([], none)
  | (k, s) :: rest =>
    match updater s.entity with
    | (e', some e) => ((k, { s with entity := e' }) :: rest, some e)
    | (e', none) =>
      let (rest', r) := updateServicesList updater rest
      ((k, { s with entity := e' }) :: rest', r)

/-- Embeds `ServiceRegistry.UpdateServices` (lines 104-116). -/
def UpdateServices (sr : ServiceRegistry) (updater : Option ServiceUpdater) :
    ServiceRegistry × UpdateOutcome :=
  match updater with
  | none => (sr, UpdateOutcome.panicked "the provided update is invalid")
  | some f =>
    match updateServicesList f sr.services with
    | (services', some e) => ({ sr with services := services' }, UpdateOutcome.err e)
    | (services', none) => ({ sr with services := services' }, UpdateOutcome.ok)

/-- The inner walk of `UpdateInstances` over one service's
deployments. -/
def updateInstancesDeployments (updater : InstanceUpdater) :
    List Deployment → List Deployment × Option String
  | [] => ([], none)
  | d :: ds =>
    match updater d.inst with
    | (i', some e) => ({ d with inst := i' } :: ds, some e)
    | (i', none) =>
      let (ds', r) := updateInstancesDeployments updater ds
      ({ d with inst := i' } :: ds', r)

/-- The outer walk of `UpdateInstances` over all services. -/
def updateInstancesServices (updater : InstanceUpdater) :
    List (String × RService) → List (String × RService) × Option String
  | [] => ([], none)
  | (k, s) :: rest =>
    match updateInstancesDeployments updater s.deployments with
    | (ds', some e) => ((k, { s with deployments := ds' }) :: rest, some e)
    | (ds', none) =>
      let (rest', r) := updateInstancesServices updater rest
      ((k, { s with deployments := ds' }) :: rest', r)

/-- Embeds `ServiceRegistry.UpdateInstances` (lines 119-133). -/
def UpdateInstances (sr : ServiceRegistry) (updater : Option InstanceUpdater) :
    ServiceRegistry × UpdateOutcome :=
  match updater with
  | none => (sr, UpdateOutcome.panicked "the provided update is invalid")
  | some f =>
    match updateInstancesServices f sr.services with
    | (services', some e) => ({ sr with services := services' }, UpdateOutcome.err e)
    | (services', none) => ({ sr with services := services' }, UpdateOutcome.ok)

/-! Concrete registries used by the theorems below. -/

def sEntity : ServiceEntity := { id := "s1", urls := ["svc.example.com"], isEnabled := true }

/-- A registered service with an empty deployment list. -/
def emptyService : RService :=
  { entity := sEntity, deployments := [], sched := some (newWeightedRoundRobin []) }

def registryOne : ServiceRegistry := { services := [("s1", emptyService)] }

/-- A deployment whose node (`n1`) and instance (`i1`) are both
attached, registered for service `s1`. -/
def aDeployment : Deployment := { node := n1, inst := i1 }

def attachedService : RService :=
  { entity := sEntity, deployments := [aDeployment], sched := none }

def registryAttached : ServiceRegistry := { services := [("s1", attachedService)] }

/-- If some element of a list satisfies the predicate, `findIdx?` finds
an index. -/
theorem findIdx?_some_of_mem {α : Type} (p : α → Bool) :
    ∀ l : List α, (∃ x ∈ l, p x = true) → ∃ i, l.findIdx? p = some i := by
  intro l
  induction l with
  | nil => rintro ⟨x, hx, _⟩; cases hx
  | cons y ys ih =>
    rintro ⟨x, hx, hp⟩
    rw [List.findIdx?_cons]
    by_cases hy : p y = true
    · exact ⟨0, by simp [hy]⟩
    · rcases List.mem_cons.mp hx with rfl | hx'
      · exact absurd hp hy
      · obtain ⟨i, hi⟩ := ih ⟨x, hx', hp⟩
        exact ⟨i + 1, by simp [hy, hi]⟩

/-- Claim C2: the spec requires `RegisterDeployment` to append the
deployment to the service's list and propagate the updated list to the
scheduler.  The code instead appends to a dead local copy of the slice
header: on the concrete input below the call returns `nil` (success)
while the registry — deployment list and scheduler included — is
returned completely unchanged, the list still empty. -/
theorem registerDeployment_discards_deployment :
    RegisterDeployment registryOne { node := n1, inst := i1 } = (registryOne, Except.ok ())
    ∧ (lookupService registryOne "s1").map (fun s => s.deployments.length) = some 0 :=
  ⟨rfl, rfl⟩

/-- Claim C6: a deployment is removable iff its node is not attached or
its instance is not attached; consequently, for a registered deployment
whose node and instance are both attached, `UnregisterDeployment` with
`force = false` fails with `DeploymentNotRemovable` and with
`force = true` succeeds. -/
theorem deployment_removability :
    (∀ d : Deployment,
        d.isRemovable = true ↔ (d.node.isAttached = false ∨ d.inst.isAttached = false))
    ∧ ∀ (sr : ServiceRegistry) (d : Deployment) (s : RService),
        lookupService sr d.inst.serviceID = some s →
        (∃ d' ∈ s.deployments, d'.equals d = true) →
        d.node.isAttached = true → d.inst.isAttached = true →
        (UnregisterDeployment sr d false).2 = Except.error RegistryError.deploymentNotRemovable
        ∧ (UnregisterDeployment sr d true).2 = Except.ok () := by
  constructor
  · intro d
    cases hb : d.node.isAttached <;> cases hi : d.inst.isAttached <;>
      simp [Deployment.isRemovable, hb, hi]
  · intro sr d s hfound hmem hnode hinst
    obtain ⟨i, hidx⟩ := findIdx?_some_of_mem (fun d' => d'.equals d) s.deployments hmem
    have hremov : d.isRemovable = false := by
      simp [Deployment.isRemovable, hnode, hinst]
    have hne : ((Int.ofNat i) == (-1 : Int)) = false := by
      simp [beq_eq_false_iff_ne]
    constructor
    · simp [UnregisterDeployment, indexOfDeployment, hfound, hidx, hne, hremov]
    · simp [UnregisterDeployment, indexOfDeployment, hfound, hidx, hne]

/-- Witness for C6: in `registryAttached`, unregistering the
doubly-attached deployment fails unforced and succeeds forced. -/
theorem deployment_removability_witness :
    (UnregisterDeployment registryAttached aDeployment false).2 =
        Except.error RegistryError.deploymentNotRemovable
    ∧ (UnregisterDeployment registryAttached aDeployment true).2 = Except.ok () :=
  deployment_removability.2 registryAttached aDeployment attachedService (by decide)
    ⟨aDeployment, by decide, by decide⟩ (by decide) (by decide)

/-- Claim C10: calling `UpdateNodes`, `UpdateServices` or
`UpdateInstances` with a nil updater panics with `ErrInvalidUpdate`
before visiting any element — it does not return an error value — and
the registry state is unmodified. -/
theorem update_nil_updater_panics (sr : ServiceRegistry) :
    UpdateNodes sr none = (sr, UpdateOutcome.panicked "the provided update is invalid")
    ∧ UpdateServices sr none = (sr, UpdateOutcome.panicked "the provided update is invalid")
    ∧ UpdateInstances sr none = (sr, UpdateOutcome.panicked "the provided update is invalid") :=
  ⟨rfl, rfl, rfl⟩

/-! ### Scheduler factory (scheduler/scheduler.go) -/

/-- Result of `NewScheduler` (scheduler/scheduler.go lines 51-68): a
scheduler, the `invalidBalancingMethodErr` error return, or a runtime
panic. -/
inductive SchedulerResult where
  | ok (wrr : WeightedRoundRobin)
  | err (message : String)
  | panicked (message : String)
  deriving Repr, DecidableEq

/-- Embeds `NewScheduler`: the `switch` on the balancing method panics
with "unimplemented balancing algorithm" for the three unimplemented
enum values, builds a Weighted Round Robin scheduler for
`weighted_round_robin`, and returns `invalidBalancingMethodErr(method)`
for any other identifier. -/
def NewScheduler (method : String) (deployments : List Deployment) : SchedulerResult :=
  if method == "least_connection" then
    SchedulerResult.panicked "unimplemented balancing algorithm"
  else if method == "random" then
    SchedulerResult.panicked "unimplemented balancing algorithm"
  else if method == "round_robin" then
    SchedulerResult.panicked "unimplemented balancing algorithm"
  else if method == "weighted_round_robin" then
    SchedulerResult.ok (newWeightedRoundRobin deployments)
  else
    SchedulerResult.err ("invalid balancing method: " ++ method)

/-- Counterexample to C8 as stated: selecting `least_connection` does
not return an `UnsupportedBalancingMethod` error — it panics. -/
theorem newScheduler_least_connection_panics :
    NewScheduler "least_connection" [] =
      SchedulerResult.panicked "unimplemented balancing algorithm" := rfl

/-- Claim C8 (amended): for the balancing-method identifiers
`least_connection`, `random` and `round_robin`, `NewScheduler` panics
with "unimplemented balancing algorithm" instead of returning an
error; only for identifiers outside the four-value enum does it return
the `UnsupportedBalancingMethod` (invalid balancing method) error
without panicking. -/
theorem newScheduler_amended (method : String) (deployments : List Deployment) :
    ((method = "least_connection" ∨ method = "random" ∨ method = "round_robin") →
        NewScheduler method deployments =
          SchedulerResult.panicked "unimplemented balancing algorithm")
    ∧ (¬(method = "least_connection" ∨ method = "random" ∨ method = "round_robin" ∨
          method = "weighted_round_robin") →
        NewScheduler method deployments =
          SchedulerResult.err ("invalid balancing method: " ++ method)) := by
  constructor
  · rintro (rfl | rfl | rfl) <;> rfl
  · intro h
    push_neg at h
    obtain ⟨h1, h2, h3, h4⟩ := h
    simp [NewScheduler, beq_eq_false_iff_ne, h1, h2, h3, h4]

/-- Witness for C8 (amended): one enum identifier that panics and one
unknown identifier that errors. -/
theorem newScheduler_amended_witness :
    NewScheduler "least_connection" [] =
        SchedulerResult.panicked "unimplemented balancing algorithm"
    ∧ NewScheduler "lottery" [] =
        SchedulerResult.err ("invalid balancing method: " ++ "lottery") :=
  ⟨(newScheduler_amended "least_connection" []).1 (Or.inl rfl),
    (newScheduler_amended "lottery" []).2 (by decide)⟩

/-! ### Health checker (healthcheck/healthcheck.go) -/

/-- The body of `checkServices` for one service
(healthcheck/healthcheck.go lines 91-98): when the service is enabled,
every deployment's instance gets its alive flag set to the probe
outcome and is recorded as probed; a disabled service is skipped with
no probe attempted.  The TCP probe `pingInstance` is the oracle
`ping`. -/
def checkService (ping : Node → Instance → Bool) (s : RService) : RService × List Instance :=
  if s.entity.isEnabled then
    ({ s with
        deployments := s.deployments.map
          (fun d => { d with inst := { d.inst with isAlive := ping d.node d.inst } }) },
      s.deployments.map (fun d => d.inst))
  else
    (s, [])

/-- Embeds `HealthCheck.checkServices` (lines 90-99): one probing round
over the whole service map, returning the updated services and the list
of instances a probe was attempted against, in iteration order. -/
def checkServices (ping : Node → Instance → Bool) :
    List (String × RService) → List (String × RService) × List Instance
  | [] => ([], [])
  | (k, s) :: rest =>
    let one := checkService ping s
    let more := checkServices ping rest
    ((k, one.1) :: more.1, one.2 ++ more.2)

/-- A round maps each map entry through `checkService`. -/
theorem checkServices_fst (ping : Node → Instance → Bool) :
    ∀ services : List (String × RService),
      (checkServices ping services).1 =
        services.map (fun p => (p.1, (checkService ping p.2).1)) := by
  intro services
  induction services with
  | nil => rfl
  | cons p rest ih => simp [checkServices, ih]

/-- The probe log of a round is exactly the instances of the enabled
services, in order. -/
theorem checkServices_probed (ping : Node → Instance → Bool) :
    ∀ services : List (String × RService),
      (checkServices ping services).2 =
        (services.filter (fun p => p.2.entity.isEnabled)).flatMap
          (fun p => p.2.deployments.map (fun d => d.inst)) := by
  intro services
  induction services with
  | nil => rfl
  | cons p rest ih =>
    by_cases hp : p.2.entity.isEnabled
    · simp [checkServices, checkService, hp, ih]
    · simp [checkServices, checkService, hp, ih]

/-- Claim C9: a health-check round probes only deployments of enabled
services: a service whose enabled flag is false comes out of the round
exactly as it went in (all alive flags unchanged) and none of its
instances is probed — the probe log contains exactly the instances of
enabled services; instances of enabled services get their alive flag
set to the probe outcome. -/
theorem checkServices_isolation (ping : Node → Instance → Bool)
    (services : List (String × RService)) :
    (checkServices ping services).1.length = services.length
    ∧ (∀ (i : Nat) (h : i < services.length)
          (h2 : i < (checkServices ping services).1.length),
        ((services.get ⟨i, h⟩).2.entity.isEnabled = false →
            (checkServices ping services).1.get ⟨i, h2⟩ = services.get ⟨i, h⟩)
        ∧ ((services.get ⟨i, h⟩).2.entity.isEnabled = true →
            ((checkServices ping services).1.get ⟨i, h2⟩).2.deployments =
              (services.get ⟨i, h⟩).2.deployments.map
                (fun d => { d with inst := { d.inst with isAlive := ping d.node d.inst } })))
    ∧ (checkServices ping services).2 =
        (services.filter (fun p => p.2.entity.isEnabled)).flatMap
          (fun p => p.2.deployments.map (fun d => d.inst)) := by
  refine ⟨by rw [checkServices_fst]; simp, ?_, checkServices_probed ping services⟩
  intro i h h2
  simp only [List.get_eq_getElem, Fin.val_mk]
  have hget : (checkServices ping services).1[i] =
      (services[i].1, (checkService ping services[i].2).1) := by
    simp only [checkServices_fst ping services, List.getElem_map]
  constructor
  · intro hdis
    rw [hget]
    simp [checkService, hdis]
  · intro hen
    rw [hget]
    simp [checkService, hen]

/-! Concrete topology for the health-check witness: one disabled and
one enabled service. -/

def disabledEntity : ServiceEntity := { id := "s2", urls := [], isEnabled := false }

/-- A disabled service holding a dead instance: a round must leave it
dead even when the probe would report it alive. -/
def disabledService : RService :=
  { entity := disabledEntity, deployments := [ { node := n1, inst := i4 } ], sched := none }

def hcServices : List (String × RService) :=
  [("s2", disabledService), ("s1", attachedService)]

/-- A probe oracle that reports every instance reachable. -/
def pingAll : Node → Instance → Bool := fun _ _ => true

/-- Witness for C9: in a round where every probe would succeed, the
disabled service (holding dead instance i4) is returned untouched. -/
theorem checkServices_isolation_witness :
    (checkServices pingAll hcServices).1.get ⟨0, by decide⟩ = ("s2", disabledService) :=
  (((checkServices_isolation pingAll hcServices).2.1 0 (by decide) (by decide)).1
      (by decide)).trans (by decide)

/-! ### Request dispatcher (package proxy) -/

/-- The upstream response as `streamResponse` consumes it: the chunks
its body yields, then either EOF (`none`) or a read error. -/
structure UpstreamResponse where
  chunks : List String
  readError : Option String
  deriving Repr, DecidableEq

/-- An event observable by the client on the response writer: an error
page carrying a status and message, a streamed body chunk, or a runtime
panic aborting the handler. -/
inductive HandlerEvent where
  | errorPage (status : Nat) (message : String)
  | chunk (data : String)
  | panicked
  deriving Repr, DecidableEq

/-- How `streamResponse` came back to the handler. -/
inductive StreamResult where
  | ok
  | err (message : String)
  | panicked
  deriving Repr, DecidableEq

/-- Embeds `Proxy.streamResponse`: called with a nil `*http.Response`
it dereferences `response.Body` and panics; otherwise it copies the
body to the client in bounded chunks and reports the read error, if
any, after the chunks read before it (client-side write errors are not
modelled: the writer is assumed to accept every write). -/
def streamResponse : Option UpstreamResponse → List HandlerEvent × StreamResult
  | none => ([HandlerEvent.panicked], StreamResult.panicked)
  | some r =>
    (r.chunks.map HandlerEvent.chunk,
      match r.readError with
      | some e => StreamResult.err e
      | none => StreamResult.ok)

/-- The tail of `handleRequest` from the `streamResponse` call onward:
a panic propagates and aborts the handler, a stream error is answered
with a 500 error page, success ends the handler. -/
def streamTail (respOpt : Option UpstreamResponse) : List HandlerEvent :=
  match streamResponse respOpt with
  | (evs, StreamResult.panicked) => evs
  | (evs, StreamResult.err msg) => evs ++ [HandlerEvent.errorPage 500 msg]
  | (evs, StreamResult.ok) => evs

/-- What `handleRequest` reads of the looked-up service: the enabled
flag and, when the scheduler interface value is non-nil, the outcome of
its `Next()` call for this request. -/
structure ProxyService where
  isEnabled : Bool
  sched : Option (Except String Instance)
  deriving Repr

/-- Embeds the handler of `Proxy.handleRequest`: lookup failure, a
disabled service, a nil scheduler and a scheduler error each answer a
503 page and return.  After `dialBackend` fails, the Go code writes the
500 error page but lacks a `return`, so it falls through to
`streamResponse` with the nil response.  The registry lookup and the
upstream dial are oracle inputs. -/
def handleRequest (lookup : Option ProxyService)
    (dial : String → Except String UpstreamResponse) : List HandlerEvent :=
  match lookup with
  | none => [HandlerEvent.errorPage 503 "Service Unavailable"]
  | some service =>
    if service.isEnabled = false then
      [HandlerEvent.errorPage 503 "Service Unavailable"]
    else
      match service.sched with
      | none => [HandlerEvent.errorPage 503 "Service Unavailable"]
      | some (Except.error _) => [HandlerEvent.errorPage 503 "Service Unavailable"]
      | some (Except.ok inst) =>
        match dial inst.url with
        | Except.error e => HandlerEvent.errorPage 500 e :: streamTail none
        | Except.ok resp => streamTail (some resp)

/-- An enabled service whose scheduler selects instance i1. -/
def liveService : ProxyService := { isEnabled := true, sched := some (Except.ok i1) }

/-- Claim C7: the spec requires that on upstream dial failure the
handler answers with the error page and stops, producing exactly one
response.  Evaluating the handler on a request whose dial fails shows
the code writing the 500 page and then still reaching the
response-streaming step with the nil response, where it panics. -/
theorem proxy_dial_failure_falls_through :
    handleRequest (some liveService) (fun _ => Except.error "connection refused") =
      [HandlerEvent.errorPage 500 "connection refused", HandlerEvent.panicked] := rfl

end Dice
